import Mathlib

/-!
Verification development for the object-placement pipeline of the Roam map
generator.  The definitions below are a shallow embedding of the JavaScript
sources `objectDefinitions.js`, `gridGenerator.js`, `terrainAnalyzer.js` and
the placement-mask generator.  JavaScript numbers are modelled as rationals;
`Math.sqrt` is passed as an explicit function parameter `msqrt` (instantiated
with `Rat.sqrt` at concrete inputs; every verified property is independent of
the sqrt implementation).  `Math.random()` is modelled as an explicit stream
`rnd : ℕ → ℚ` of draws, consumed in the same order as the code calls it.
Comparisons against absent (`undefined`) JavaScript properties are modelled by
`Option` together with the JS rule that any `<`/`>` comparison with
`undefined` is false.
-/

namespace Roam

/-- JS comparison `a > b` where `b` may be `undefined` (an absent property):
any comparison with `undefined` evaluates to false. -/
def jsGtOpt (a : ℚ) (b : Option ℚ) : Bool :=
  match b with
  | some q => a > q
  | none => false

/-- JS comparison `a < b` where `a` may be `undefined` (an unpopulated
property): any comparison with `undefined` evaluates to false. -/
def jsLtOpt (a : Option ℚ) (b : ℚ) : Bool :=
  match a with
  | some q => q < b
  | none => false

/-- JS comparison `a > b` where `a` may be `undefined`. -/
def jsGtU (a : Option ℚ) (b : ℚ) : Bool :=
  match a with
  | some q => q > b
  | none => false

/-- JS object-property lookup `table[key]`, modelled over an association
list: the first binding for `key`, if any. -/
def findDef {α : Type} : List (String × α) → String → Option α
  | [], _ => none
  | (k, v) :: rest, key => if k = key then some v else findDef rest key

theorem findDef_mem {α : Type} {l : List (String × α)} {key : String} {v : α}
    (h : findDef l key = some v) : (key, v) ∈ l := by
  induction l with
  | nil => simp [findDef] at h
  | cons p rest ih =>
    obtain ⟨k, w⟩ := p
    rw [findDef] at h
    by_cases hk : k = key
    · subst hk
      simp only [if_true, Option.some.injEq] at h
      rw [h]
      exact List.mem_cons_self _ _
    · exact List.mem_cons_of_mem _ (ih (by simpa [hk] using h))

theorem findDef_cons {α : Type} (k : String) (v : α) (l : List (String × α))
    (key : String) :
    findDef ((k, v) :: l) key = if k = key then some v else findDef l key := rfl

/-- `placementRules` of an object definition (`objectDefinitions.js`).
Fields absent from some definitions (`maxSlope`, `avoidWater`,
`requireWater`) are `Option`s, read through the `undefined` comparison
helpers. -/
structure PlacementRules where
  maxSlope : Option ℚ
  minHeight : ℚ
  maxHeight : ℚ
  avoidWater : Option Bool
  requireWater : Option Bool
  minDistanceToSameType : ℚ
  canOverlap : Bool
deriving DecidableEq

/-- `customRules` of a subtype.  Absent flags are `undefined` in JS, which is
falsy everywhere the code reads them, so they default to `false`. -/
structure CustomRules where
  preferHigherElevation : Bool := false
  preferLowerElevation : Bool := false
  preferBeaches : Bool := false
  preferSteepSlopes : Bool := false
  requireFlatArea : Bool := false
  requireCluster : Bool := false
  preferLowElevation : Bool := false
  requireLargerArea : Bool := false
  requireWaterAccess : Bool := false
  requireVeryFlatArea : Bool := false
  canPlaceInLargeGroups : Bool := false
  requireDeepWater : Bool := false
  requireWaterEdge : Bool := false
  requireProximityToBuildings : Bool := false
  preferSpecificElevationRange : Option (ℚ × ℚ) := none
deriving DecidableEq

/-- One named subtype of an object definition. -/
structure ObjectSubtype where
  name : String
  scalingMin : ℚ
  scalingMax : ℚ
  customRules : CustomRules
deriving DecidableEq

/-- One entry of the static `objectDefinitions` table. -/
structure ObjectDefinition where
  name : String
  category : String
  placementRules : PlacementRules
  defaultDistribution : String
  priority : ℤ
  subtypes : List (String × ObjectSubtype)
deriving DecidableEq

def treeDef : ObjectDefinition :=
  { name := "Tree", category := "vegetation"
    placementRules :=
      { maxSlope := some 0.15, minHeight := 0.05, maxHeight := 0.8
        avoidWater := some true, requireWater := none
        minDistanceToSameType := 2, canOverlap := false }
    defaultDistribution := "natural", priority := 2
    subtypes :=
      [("oak", { name := "Oak Tree", scalingMin := 0.8, scalingMax := 1.2
                 customRules := {} }),
       ("pine", { name := "Pine Tree", scalingMin := 0.9, scalingMax := 1.5
                  customRules := { preferHigherElevation := true } }),
       ("palm", { name := "Palm Tree", scalingMin := 0.9, scalingMax := 1.1
                  customRules := { preferLowerElevation := true
                                   preferBeaches := true } })] }

def rockDef : ObjectDefinition :=
  { name := "Rock", category := "terrain"
    placementRules :=
      { maxSlope := some 0.3, minHeight := 0, maxHeight := 1
        avoidWater := some true, requireWater := none
        minDistanceToSameType := 1, canOverlap := false }
    defaultDistribution := "random", priority := 3
    subtypes :=
      [("rock", { name := "Small Rock", scalingMin := 0.5, scalingMax := 1
                  customRules := {} }),
       ("boulder", { name := "Boulder", scalingMin := 1, scalingMax := 2
                     customRules := { preferHigherElevation := true
                                      preferSteepSlopes := true } })] }

def buildingDef : ObjectDefinition :=
  { name := "Building", category := "structure"
    placementRules :=
      { maxSlope := some 0.05, minHeight := 0.1, maxHeight := 0.5
        avoidWater := some true, requireWater := none
        minDistanceToSameType := 2, canOverlap := false }
    defaultDistribution := "clustered", priority := 1
    subtypes :=
      [("house", { name := "House", scalingMin := 0.8, scalingMax := 1.2
                   customRules := {} }),
       ("village", { name := "Village", scalingMin := 1, scalingMax := 1
                     customRules := { requireFlatArea := true
                                      requireCluster := true
                                      preferLowElevation := true } }),
       ("town", { name := "Town", scalingMin := 1, scalingMax := 1
                  customRules := { requireFlatArea := true
                                   requireCluster := true
                                   preferLowElevation := true
                                   requireLargerArea := true } }),
       ("city", { name := "City", scalingMin := 1, scalingMax := 1
                  customRules := { requireFlatArea := true
                                   requireCluster := true
                                   preferLowElevation := true
                                   requireLargerArea := true
                                   requireWaterAccess := true } }),
       ("farm", { name := "Farm", scalingMin := 0.9, scalingMax := 1.1
                  customRules := { requireVeryFlatArea := true
                                   preferLowElevation := true } })] }

def waterObjectDef : ObjectDefinition :=
  { name := "Water Object", category := "water"
    placementRules :=
      { maxSlope := none, minHeight := 0, maxHeight := 0.2
        avoidWater := none, requireWater := some true
        minDistanceToSameType := 3, canOverlap := true }
    defaultDistribution := "water", priority := 2
    subtypes :=
      [("boat", { name := "Boat", scalingMin := 0.8, scalingMax := 1.2
                  customRules := { requireDeepWater := true } }),
       ("dock", { name := "Dock", scalingMin := 0.9, scalingMax := 1.1
                  customRules := { requireWaterEdge := true
                                   requireProximityToBuildings := true } })] }

def vegetationDef : ObjectDefinition :=
  { name := "Vegetation", category := "vegetation"
    placementRules :=
      { maxSlope := some 0.2, minHeight := 0.05, maxHeight := 0.7
        avoidWater := some true, requireWater := none
        minDistanceToSameType := 0.5, canOverlap := true }
    defaultDistribution := "natural", priority := 4
    subtypes :=
      [("bush", { name := "Bush", scalingMin := 0.7, scalingMax := 1.3
                  customRules := {} }),
       ("grass", { name := "Tall Grass", scalingMin := 0.8, scalingMax := 1.2
                   customRules := { canPlaceInLargeGroups := true } }),
       ("flower", { name := "Flower", scalingMin := 0.9, scalingMax := 1.1
                    customRules := { canPlaceInLargeGroups := true
                                     preferSpecificElevationRange :=
                                       some (0.2, 0.6) } })] }

/-- The static rule table of `objectDefinitions.js`. -/
def objectDefinitions : List (String × ObjectDefinition) :=
  [("tree", treeDef), ("rock", rockDef), ("building", buildingDef),
   ("waterObject", waterObjectDef), ("vegetation", vegetationDef)]

/-- A parsed object request (`promptParser.js` output shape): `location` is
`null`able and `terrain` inside it is `null`able; `distribution` may be
absent. -/
structure RequestLocation where
  x : ℚ
  y : ℚ
  radius : ℚ
  terrain : Option String
deriving DecidableEq

structure ObjectRequest where
  type : String
  subType : String
  density : ℚ
  location : Option RequestLocation
  distribution : Option String
deriving DecidableEq

/-! ### Grid (`gridGenerator.js`)

A grid is `gridSize × gridSize` cells over a `width × height` map.  Cells are
stored row-major (`y` outer, `x` inner), so cell `i` has grid coordinates
`(i % gridSize, i / gridSize)`; all per-cell geometry below is the coordinate
arithmetic `createGrid` bakes into each cell object. -/

structure GridSpec where
  width : ℚ
  height : ℚ
  gridSize : ℕ
deriving DecidableEq

def cellWidth (g : GridSpec) : ℚ := g.width / g.gridSize

def cellHeight (g : GridSpec) : ℚ := g.height / g.gridSize

def gridXOf (g : GridSpec) (i : ℕ) : ℕ := i % g.gridSize

def gridYOf (g : GridSpec) (i : ℕ) : ℕ := i / g.gridSize

def cellOriginX (g : GridSpec) (i : ℕ) : ℚ := (gridXOf g i : ℚ) * cellWidth g

def cellOriginY (g : GridSpec) (i : ℕ) : ℚ := (gridYOf g i : ℚ) * cellHeight g

def cellCenterX (g : GridSpec) (i : ℕ) : ℚ :=
  ((gridXOf g i : ℚ) + 0.5) * cellWidth g

def cellCenterY (g : GridSpec) (i : ℕ) : ℚ :=
  ((gridYOf g i : ℚ) + 0.5) * cellHeight g

/-- The Moore-direction offsets, in the order `getNeighbors` lists them. -/
def neighborDirections : List (ℤ × ℤ) :=
  [(-1, -1), (0, -1), (1, -1), (-1, 0), (1, 0), (-1, 1), (0, 1), (1, 1)]

/-- `grid.getNeighbors(cell)`: the in-bounds Moore neighbors of cell `i`,
as row-major indices. -/
def getNeighbors (g : GridSpec) (i : ℕ) : List ℕ :=
  neighborDirections.filterMap fun d =>
    let nx : ℤ := (gridXOf g i : ℤ) + d.1
    let ny : ℤ := (gridYOf g i : ℤ) + d.2
    if 0 ≤ nx ∧ nx < (g.gridSize : ℤ) ∧ 0 ≤ ny ∧ ny < (g.gridSize : ℤ) then
      some (ny.toNat * g.gridSize + nx.toNat)
    else none

/-- Inclusive integer range `lo..hi` (the JS `for (v = lo; v <= hi; v++)`
loop; empty when `hi < lo`). -/
def intRange (lo hi : ℤ) : List ℤ :=
  (List.range (hi + 1 - lo).toNat).map fun (k : ℕ) => lo + (k : ℤ)

/-- `grid.getCellsInRadius(centerX, centerY, radius)`: bound the search to a
coordinate box of `⌈radius / min(cellWidth, cellHeight)⌉` cells, then filter
by exact distance `msqrt(dx² + dy²) ≤ radius`. -/
def getCellsInRadius (g : GridSpec) (msqrt : ℚ → ℚ) (centerX centerY radius : ℚ) :
    List ℕ :=
  let centerGridX : ℤ := ⌊centerX / cellWidth g⌋
  let centerGridY : ℤ := ⌊centerY / cellHeight g⌋
  let radiusInCells : ℤ := ⌈radius / min (cellWidth g) (cellHeight g)⌉
  (intRange (-radiusInCells) radiusInCells).flatMap fun dy =>
    (intRange (-radiusInCells) radiusInCells).filterMap fun dx =>
      let gx : ℤ := centerGridX + dx
      let gy : ℤ := centerGridY + dy
      if 0 ≤ gx ∧ gx < (g.gridSize : ℤ) ∧ 0 ≤ gy ∧ gy < (g.gridSize : ℤ) then
        let cellCX : ℚ := ((gx : ℚ) + 0.5) * cellWidth g
        let cellCY : ℚ := ((gy : ℚ) + 0.5) * cellHeight g
        let distance := msqrt ((cellCX - centerX) ^ 2 + (cellCY - centerY) ^ 2)
        if distance ≤ radius then some (gy.toNat * g.gridSize + gx.toNat)
        else none
      else none

/-! ### Terrain data model (`terrainAnalyzer.js` outputs) -/

structure DirectionalSlopes where
  north : ℚ
  south : ℚ
  east : ℚ
  west : ℚ
  northeast : ℚ
  northwest : ℚ
  southeast : ℚ
  southwest : ℚ
deriving DecidableEq

/-- The feature object built by `classifyTerrainFeatures`.  Note it carries
no `slope` key: reading `features.slope` in JS yields `undefined`. -/
structure TerrainFeatures where
  isPeak : Bool
  isValley : Bool
  isRidge : Bool
  isFlat : Bool
  isSteep : Bool
  elevationClass : String
deriving DecidableEq

/-- The JS access `features.slope` in `cellHasTerrainFeature`: the
`terrainFeatures` object has no `slope` key, so the access yields
`undefined`. -/
def featuresSlope (_f : TerrainFeatures) : Option ℚ := none

/-- `cell.properties` after terrain analysis. -/
structure TerrainProps where
  height : ℚ
  minHeight : ℚ
  maxHeight : ℚ
  slope : ℚ
  slopes : DirectionalSlopes
  terrainFeatures : TerrainFeatures
deriving DecidableEq

/-! ### Suitability engine (`calculateObjectSuitability` and helpers) -/

/-- `calculateDistance(x1, y1, x2, y2)`. -/
def calculateDistance (msqrt : ℚ → ℚ) (x1 y1 x2 y2 : ℚ) : ℚ :=
  msqrt ((x2 - x1) ^ 2 + (y2 - y1) ^ 2)

/-- `cellHasTerrainFeature(cell, terrainType)`.  For `mountains` and `hills`
the code reads `features.slope`, which is `undefined` (the features object
has no such key), so those comparisons are always false. -/
def cellHasTerrainFeature (props : TerrainProps) (terrainType : String) : Bool :=
  let features := props.terrainFeatures
  match terrainType with
  | "mountains" =>
      features.elevationClass == "highland" && jsGtU (featuresSlope features) 0.2
  | "hills" =>
      features.elevationClass == "midland" && jsGtU (featuresSlope features) 0.1
  | "flatlands" => features.isFlat
  | "river" | "lake" => decide (props.height < 0.1)
  | "forest" =>
      decide (props.slope < 0.15) && decide (props.height > 0.05) &&
        decide (props.height < 0.8)
  | _ => false

/-- `calculateObjectSuitability`: the per-cell suitability score stored in
`cell.suitability[objectData.type]`.  `props` is the analyzed grid; the
result is the value for cell `i`.  The hard gate writes `0` and `continue`s;
otherwise the multiplicative score is stored as computed — the code applies
no clamp. -/
def calculateObjectSuitability (objectData : ObjectRequest)
    (objectDef : ObjectDefinition) (g : GridSpec) (props : ℕ → TerrainProps)
    (msqrt : ℚ → ℚ) : ℕ → ℚ := fun i =>
  let placementRules := objectDef.placementRules
  let subTypeRules :=
    ((findDef objectDef.subtypes objectData.subType).map
      ObjectSubtype.customRules).getD {}
  if jsGtOpt (props i).slope placementRules.maxSlope then 0
  else if (props i).height < placementRules.minHeight ∨
      (props i).height > placementRules.maxHeight then 0
  else
    let s1 : ℚ := 1
    let s2 :=
      match objectData.location with
      | none => s1
      | some loc =>
        match loc.terrain with
        | some terrain =>
            if cellHasTerrainFeature (props i) terrain then s1 * 1.5
            else s1 * 0.1
        | none =>
            let distance := calculateDistance msqrt
              (cellCenterX g i / g.width) (cellCenterY g i / g.height)
              loc.x loc.y
            if distance ≤ loc.radius then
              s1 * (1 - 0.5 * distance / loc.radius)
            else s1 * 0.2
    let s3 := if subTypeRules.preferHigherElevation then
        s2 * (0.5 + (props i).height * 0.5) else s2
    let s4 := if subTypeRules.preferLowerElevation then
        s3 * (1 - (props i).height * 0.5) else s3
    -- `slope / placementRules.maxSlope` divides by `undefined` when the
    -- definition has no `maxSlope`; no subtype of such a definition sets
    -- `preferSteepSlopes`, so the branch models the division with junk 0.
    let s5 := if subTypeRules.preferSteepSlopes then
        s4 * (0.5 + (props i).slope / placementRules.maxSlope.getD 0 * 0.5)
      else s4
    let s6 := if subTypeRules.requireFlatArea &&
        !(props i).terrainFeatures.isFlat then s5 * 0.1 else s5
    let s7 := if subTypeRules.requireWaterAccess then
        if (getNeighbors g i).any fun n =>
            decide ((props n).height < 0.1) &&
              ((props n).terrainFeatures.elevationClass == "lowland") then s6
        else s6 * 0.1
      else s6
    s7 * objectData.density

/-! ### Distribution synthesizer (`createPlacementMask` and the four
strategies)

A mask is a function from row-major cell index to `0`/`1`.  Every strategy
threads the `Math.random()` stream `rnd` through an explicit draw counter:
each strategy takes the counter value `k0` at entry and returns the counter
after its last draw, so that consecutive strategies consume consecutive
draws exactly as the ambient JS RNG does. -/

def maskSet (m : ℕ → ℕ) (i : ℕ) (v : ℕ) : ℕ → ℕ :=
  fun j => if j = i then v else m j

theorem maskSet_apply (m : ℕ → ℕ) (a v i : ℕ) :
    maskSet m a v i = if i = a then v else m i := rfl

/-- The all-zero mask `new Array(grid.cells.length).fill(0)` that
`generatePlacementMasks` allocates before any strategy runs. -/
def zeroMask : ℕ → ℕ := fun _ => 0

/-- `createRandomDistributionMask`: one Bernoulli draw per cell, probability
the cell's stored suitability. -/
def createRandomDistributionMask (g : GridSpec) (suit : ℕ → ℚ) (rnd : ℕ → ℚ)
    (k0 : ℕ) (m0 : ℕ → ℕ) : ℕ × (ℕ → ℕ) :=
  (List.range (g.gridSize * g.gridSize)).foldl
    (fun st i =>
      if rnd st.1 < suit i then (st.1 + 1, maskSet st.2 i 1)
      else (st.1 + 1, st.2))
    (k0, m0)

/-- Count of Moore neighbors of cell `i` whose mask value is `1`. -/
def countActiveNeighbors (g : GridSpec) (m : ℕ → ℕ) (i : ℕ) : ℕ :=
  ((getNeighbors g i).filter fun n => m n == 1).length

/-- One synchronous cellular-automaton iteration of the natural
distribution: the whole next generation is computed from a snapshot of the
previous one (`const newMask = [...mask.cells]`). -/
def caStep (g : GridSpec) (suit : ℕ → ℚ) (m : ℕ → ℕ) : ℕ → ℕ := fun j =>
  if j < g.gridSize * g.gridSize then
    let activeNeighbors := countActiveNeighbors g m j
    if m j = 1 then
      -- survival rule: remain active if 2-6 active neighbors
      if activeNeighbors < 2 ∨ activeNeighbors > 6 then 0 else 1
    else
      -- birth rule: become active if 3-4 active neighbors and own
      -- suitability above suitabilityThreshold * 0.7
      if 3 ≤ activeNeighbors ∧ activeNeighbors ≤ 4 ∧ suit j > 0.3 * 0.7 then 1
      else 0
  else m j

/-- Seeding phase of `createNaturalDistributionMask`: a draw happens only
when the suitability exceeds the threshold (JS `&&` short-circuits before
`Math.random()`). -/
def naturalSeedPhase (g : GridSpec) (suit : ℕ → ℚ) (rnd : ℕ → ℚ) (k0 : ℕ)
    (m0 : ℕ → ℕ) : ℕ × (ℕ → ℕ) :=
  (List.range (g.gridSize * g.gridSize)).foldl
    (fun st i =>
      if suit i > 0.3 then
        if rnd st.1 < suit i then (st.1 + 1, maskSet st.2 i 1)
        else (st.1 + 1, st.2)
      else st)
    (k0, m0)

/-- `createNaturalDistributionMask`: threshold seeding followed by a fixed
2 cellular-automaton iterations. -/
def createNaturalDistributionMask (g : GridSpec) (suit : ℕ → ℚ)
    (rnd : ℕ → ℚ) (k0 : ℕ) (m0 : ℕ → ℕ) : ℕ × (ℕ → ℕ) :=
  let seeded := naturalSeedPhase g suit rnd k0 m0
  (seeded.1, caStep g suit (caStep g suit seeded.2))

/-- `createClusteredDistributionMask`: up to 5 centers with suitability
above 0.6, sorted descending by suitability; each center activates cells in
a radius of 10% of the map width with probability
`distanceFactor * suitability`. -/
def createClusteredDistributionMask (g : GridSpec) (suit : ℕ → ℚ)
    (rnd : ℕ → ℚ) (msqrt : ℚ → ℚ) (k0 : ℕ) (m0 : ℕ → ℕ) : ℕ × (ℕ → ℕ) :=
  let clusterCenters :=
    (List.range (g.gridSize * g.gridSize)).filter fun i => decide (suit i > 0.6)
  let finalCenters :=
    (clusterCenters.mergeSort fun a b => decide (suit b ≤ suit a)).take 5
  let clusterRadius := g.width * 0.1
  finalCenters.foldl
    (fun st center =>
      (getCellsInRadius g msqrt (cellCenterX g center) (cellCenterY g center)
          clusterRadius).foldl
        (fun st2 i =>
          let distance := msqrt ((cellCenterX g i - cellCenterX g center) ^ 2 +
            (cellCenterY g i - cellCenterY g center) ^ 2)
          let distanceFactor := 1 - distance / clusterRadius
          let probability := distanceFactor * suit i
          if rnd st2.1 < probability then (st2.1 + 1, maskSet st2.2 i 1)
          else (st2.1 + 1, st2.2))
        st)
    (k0, m0)

/-- The per-cell water suitability of `createWaterDistributionMask`: the
eligibility chain over `isDeepWater` / `isWaterEdge` / plain water,
intersected with the subtype's water-requirement flags (looked up from the
global `objectDefinitions`, as the code does inside the loop). -/
def waterSuitabilityOf (objectData : ObjectRequest) (g : GridSpec)
    (props : ℕ → TerrainProps) (suit : ℕ → ℚ) (i : ℕ) : ℚ :=
  let isWater := decide ((props i).height < 0.1)
  let isDeepWater := decide ((props i).height < 0.05)
  let isWaterEdge := !isWater &&
    (getNeighbors g i).any fun n => decide ((props n).height < 0.1)
  let subTypeRules :=
    (((findDef objectDefinitions objectData.type).bind fun d =>
        findDef d.subtypes objectData.subType).map
      ObjectSubtype.customRules).getD {}
  if subTypeRules.requireDeepWater && isDeepWater then suit i
  else if subTypeRules.requireWaterEdge && isWaterEdge then suit i
  else if !subTypeRules.requireDeepWater && !subTypeRules.requireWaterEdge &&
      isWater then suit i
  else 0

/-- `createWaterDistributionMask`: one Bernoulli draw per cell with the
water-adjusted suitability as probability. -/
def createWaterDistributionMask (objectData : ObjectRequest) (g : GridSpec)
    (props : ℕ → TerrainProps) (suit : ℕ → ℚ) (rnd : ℕ → ℚ) (k0 : ℕ)
    (m0 : ℕ → ℕ) : ℕ × (ℕ → ℕ) :=
  (List.range (g.gridSize * g.gridSize)).foldl
    (fun st i =>
      if rnd st.1 < waterSuitabilityOf objectData g props suit i then
        (st.1 + 1, maskSet st.2 i 1)
      else (st.1 + 1, st.2))
    (k0, m0)

/-- `createPlacementMask`: dispatch on `objectData.distribution || 'random'`;
the switch sends `'random'` and every unrecognized name to the random
strategy. -/
def createPlacementMask (objectData : ObjectRequest) (g : GridSpec)
    (props : ℕ → TerrainProps) (suit : ℕ → ℚ) (msqrt : ℚ → ℚ) (rnd : ℕ → ℚ)
    (k0 : ℕ) (m0 : ℕ → ℕ) : ℕ × (ℕ → ℕ) :=
  let distribution := objectData.distribution.getD "random"
  if distribution = "natural" then
    createNaturalDistributionMask g suit rnd k0 m0
  else if distribution = "clustered" then
    createClusteredDistributionMask g suit rnd msqrt k0 m0
  else if distribution = "water" then
    createWaterDistributionMask objectData g props suit rnd k0 m0
  else createRandomDistributionMask g suit rnd k0 m0

/-- Loop body of `generatePlacementMasks`: an unknown object type is skipped
with a warning; otherwise suitability is computed and a fresh all-zero mask
is filled by the selected strategy and recorded under the object type. -/
def processObject (g : GridSpec) (props : ℕ → TerrainProps) (msqrt : ℚ → ℚ)
    (rnd : ℕ → ℚ) (st : ℕ × List (String × (ℕ → ℕ)))
    (objectData : ObjectRequest) : ℕ × List (String × (ℕ → ℕ)) :=
  match findDef objectDefinitions objectData.type with
  | none => st
  | some objectDef =>
    let suit := calculateObjectSuitability objectData objectDef g props msqrt
    let r := createPlacementMask objectData g props suit msqrt rnd st.1 zeroMask
    (r.1, (objectData.type, r.2) :: st.2)

/-- `generatePlacementMasks`: sort the requests ascending by the rule
table's priority (999 for unknown types) and process each in turn,
threading the RNG draw counter.  The result maps object type to its
completed mask. -/
def generatePlacementMasks (objects : List ObjectRequest) (g : GridSpec)
    (props : ℕ → TerrainProps) (msqrt : ℚ → ℚ) (rnd : ℕ → ℚ) (k0 : ℕ) :
    ℕ × List (String × (ℕ → ℕ)) :=
  let sortedObjects := objects.mergeSort fun a b =>
    decide ((((findDef objectDefinitions a.type).map
        ObjectDefinition.priority).getD 999) ≤
      (((findDef objectDefinitions b.type).map
        ObjectDefinition.priority).getD 999))
  sortedObjects.foldl (processObject g props msqrt rnd) (k0, [])

/-! ### Terrain analyzer (`terrainAnalyzer.js`)

`calculateHeightAndSlope` is a single row-major pass: for each cell it
samples heights, stores the statistics, and immediately calls
`classifyTerrainFeatures`, which reads neighbor cells whose `properties`
object is still empty when the neighbor comes later in row-major order —
those reads yield `undefined`.  The pass state is therefore a partial map
from cell index to its (fully written) properties. -/

/-- JS `String.prototype.startsWith` over character lists. -/
def startsWithSeq : List Char → List Char → Bool
  | [], _ => true
  | _ :: _, [] => false
  | c :: cs, d :: ds => c == d && startsWithSeq cs ds

/-- JS `String.prototype.includes` over character lists: `needle` occurs as
a contiguous substring of the second argument. -/
def jsIncludes (needle : List Char) : List Char → Bool
  | [] => startsWithSeq needle []
  | c :: rest => startsWithSeq needle (c :: rest) || jsIncludes needle rest

inductive Direction
  | north
  | south
  | east
  | west
  | northeast
  | northwest
  | southeast
  | southwest
deriving DecidableEq

/-- The JS key naming each direction, as a character list. -/
def directionName : Direction → List Char
  | .north => ['n', 'o', 'r', 't', 'h']
  | .south => ['s', 'o', 'u', 't', 'h']
  | .east => ['e', 'a', 's', 't']
  | .west => ['w', 'e', 's', 't']
  | .northeast => ['n', 'o', 'r', 't', 'h', 'e', 'a', 's', 't']
  | .northwest => ['n', 'o', 'r', 't', 'h', 'w', 'e', 's', 't']
  | .southeast => ['s', 'o', 'u', 't', 'h', 'e', 'a', 's', 't']
  | .southwest => ['s', 'o', 'u', 't', 'h', 'w', 'e', 's', 't']

/-- The `(dx, dy)` offset table of `calculateDirectionalSlopes`. -/
def directionDelta : Direction → ℤ × ℤ
  | .north => (0, -1)
  | .south => (0, 1)
  | .east => (1, 0)
  | .west => (-1, 0)
  | .northeast => (1, -1)
  | .northwest => (-1, -1)
  | .southeast => (1, 1)
  | .southwest => (-1, 1)

/-- The directional slope of cell `i` toward `d`: `(heightAt(neighborCenter)
− heightAt(thisCenter)) / distance` when the neighbor exists, else 0.  The
distance is `cell.width` when the direction name `includes` one of
`'north'/'south'/'east'/'west'` and `Math.sqrt(2·w·w)` otherwise; every
diagonal name contains a cardinal name as a substring, so the test decides
which branch runs exactly as in the source. -/
def slopeInDirection (heightMap : ℚ → ℚ → ℚ) (g : GridSpec) (msqrt : ℚ → ℚ)
    (i : ℕ) (d : Direction) : ℚ :=
  let centerHeight := heightMap (cellCenterX g i) (cellCenterY g i)
  let nx : ℤ := (gridXOf g i : ℤ) + (directionDelta d).1
  let ny : ℤ := (gridYOf g i : ℤ) + (directionDelta d).2
  if 0 ≤ nx ∧ nx < (g.gridSize : ℤ) ∧ 0 ≤ ny ∧ ny < (g.gridSize : ℤ) then
    let neighborHeight := heightMap (((nx : ℚ) + 0.5) * cellWidth g)
      (((ny : ℚ) + 0.5) * cellHeight g)
    let distance :=
      if jsIncludes ['n', 'o', 'r', 't', 'h'] (directionName d) ||
          jsIncludes ['s', 'o', 'u', 't', 'h'] (directionName d) ||
          jsIncludes ['e', 'a', 's', 't'] (directionName d) ||
          jsIncludes ['w', 'e', 's', 't'] (directionName d) then cellWidth g
      else msqrt (2 * cellWidth g * cellWidth g)
    (neighborHeight - centerHeight) / distance
  else 0

/-- `calculateDirectionalSlopes(cell, grid, heightMap)`. -/
def calculateDirectionalSlopes (heightMap : ℚ → ℚ → ℚ) (g : GridSpec)
    (msqrt : ℚ → ℚ) (i : ℕ) : DirectionalSlopes :=
  { north := slopeInDirection heightMap g msqrt i .north
    south := slopeInDirection heightMap g msqrt i .south
    east := slopeInDirection heightMap g msqrt i .east
    west := slopeInDirection heightMap g msqrt i .west
    northeast := slopeInDirection heightMap g msqrt i .northeast
    northwest := slopeInDirection heightMap g msqrt i .northwest
    southeast := slopeInDirection heightMap g msqrt i .southeast
    southwest := slopeInDirection heightMap g msqrt i .southwest }

/-- The number of samples per dimension (`const sampleCount = 5`). -/
def sampleCount : ℕ := 5

/-- The `sampleCount × sampleCount` height samples of cell `i`, `sy` outer
and `sx` inner as in the source loops. -/
def cellSamples (heightMap : ℚ → ℚ → ℚ) (g : GridSpec) (i : ℕ) : List ℚ :=
  (List.range sampleCount).flatMap fun (sy : ℕ) =>
    (List.range sampleCount).map fun (sx : ℕ) =>
      heightMap
        (cellOriginX g i + ((sx : ℚ) + 0.5) * (cellWidth g / sampleCount))
        (cellOriginY g i + ((sy : ℚ) + 0.5) * (cellHeight g / sampleCount))

/-- JS `Math.min(...samples)` for the nonempty sample list: folding `min`
starting from the head (re-folding the head is idempotent). -/
def listMin (l : List ℚ) : ℚ := l.foldl min (l.headD 0)

def listMax (l : List ℚ) : ℚ := l.foldl max (l.headD 0)

/-- `classifyTerrainFeatures(cell, grid)` as called during the analysis
pass: `heightOf` returns the neighbor's `properties.height`, which is
`undefined` (`none`) for cells not yet processed; a JS comparison against
`undefined` is false.  (`neighbor.properties` itself is always a — possibly
empty — object, hence truthy.) -/
def classifyTerrainFeatures (g : GridSpec) (i : ℕ) (heightOf : ℕ → Option ℚ)
    (cellHeight : ℚ) (cellSlope : ℚ) (slopes : DirectionalSlopes) :
    TerrainFeatures :=
  let neighbors := getNeighbors g i
  { isPeak := neighbors.all fun n => jsLtOpt (heightOf n) cellHeight
    isValley := neighbors.all fun n => jsGtU (heightOf n) cellHeight
    isRidge :=
      decide (slopes.north * slopes.south < 0) ||
      decide (slopes.east * slopes.west < 0) ||
      decide (slopes.northeast * slopes.southwest < 0) ||
      decide (slopes.northwest * slopes.southeast < 0)
    isFlat := decide (cellSlope < 0.05)
    isSteep := decide (cellSlope > 0.3)
    elevationClass :=
      if cellHeight < 0.2 then "lowland"
      else if cellHeight < 0.6 then "midland"
      else "highland" }

/-- Per-cell work of the analysis pass: sample the height source, derive the
statistics and directional slopes, then classify using the current partial
state. -/
def analyzeCellProps (heightMap : ℚ → ℚ → ℚ) (g : GridSpec) (msqrt : ℚ → ℚ)
    (heightOf : ℕ → Option ℚ) (i : ℕ) : TerrainProps :=
  let samples := cellSamples heightMap g i
  let avgHeight := samples.sum / samples.length
  let minH := listMin samples
  let maxH := listMax samples
  let slope := (maxH - minH) / cellWidth g
  let slopes := calculateDirectionalSlopes heightMap g msqrt i
  { height := avgHeight, minHeight := minH, maxHeight := maxH, slope := slope
    slopes := slopes
    terrainFeatures := classifyTerrainFeatures g i heightOf avgHeight slope slopes }

/-- `calculateHeightAndSlope(heightMap, grid)`: the single row-major pass.
Classification of cell `i` happens inside the same iteration that writes
cell `i`, so neighbors later in row-major order still have no `height`. -/
def calculateHeightAndSlope (heightMap : ℚ → ℚ → ℚ) (g : GridSpec)
    (msqrt : ℚ → ℚ) : ℕ → Option TerrainProps :=
  (List.range (g.gridSize * g.gridSize)).foldl
    (fun acc i =>
      let props := analyzeCellProps heightMap g msqrt
        (fun n => (acc n).map TerrainProps.height) i
      fun j => if j = i then some props else acc j)
    (fun _ => none)

/-! ### Concrete instances used by the theorems below -/

/-- A 1×1-cell grid over a 1×1 map. -/
def gridOne : GridSpec := { width := 1, height := 1, gridSize := 1 }

/-- A 2×2-cell grid over a 2×2 map (cell width 1). -/
def grid2 : GridSpec := { width := 2, height := 2, gridSize := 2 }

/-- A 3×3-cell grid over a 3×3 map. -/
def grid3 : GridSpec := { width := 3, height := 3, gridSize := 3 }

/-- A height source that is 9/10 on the unit square at the origin and 1/10
elsewhere: on `grid2`, cell (0,0) has mean height 9/10 and its three
neighbors 1/10. -/
def heightMap2 : ℚ → ℚ → ℚ := fun x y => if x < 1 ∧ y < 1 then 9/10 else 1/10

/-- The analysis pass of `heightMap2` over `grid2`. -/
def analysis2 : ℕ → Option TerrainProps :=
  calculateHeightAndSlope heightMap2 grid2 Rat.sqrt

def zeroSlopes : DirectionalSlopes :=
  { north := 0, south := 0, east := 0, west := 0, northeast := 0
    northwest := 0, southeast := 0, southwest := 0 }

def flatFeatures : TerrainFeatures :=
  { isPeak := false, isValley := false, isRidge := false, isFlat := true
    isSteep := false, elevationClass := "midland" }

/-- Analyzed grid whose every cell is flat midland at height 1/2. -/
def propsFlat : ℕ → TerrainProps := fun _ =>
  { height := 1/2, minHeight := 1/2, maxHeight := 1/2, slope := 0
    slopes := zeroSlopes, terrainFeatures := flatFeatures }

/-- Analyzed grid whose every cell has slope 1 (violating every `maxSlope`
in the rule table). -/
def propsSteep : ℕ → TerrainProps := fun _ =>
  { height := 1/2, minHeight := 0, maxHeight := 1, slope := 1
    slopes := zeroSlopes, terrainFeatures := flatFeatures }

/-- Analyzed grid with exactly one deep-water cell (index 0, mean height
3/100 < 1/20) and all other cells at height 1/10. -/
def propsWater : ℕ → TerrainProps := fun i =>
  { height := if i = 0 then 3/100 else 1/10, minHeight := 0, maxHeight := 1
    slope := 0, slopes := zeroSlopes, terrainFeatures := flatFeatures }

/-- A tree request with a `flatlands` terrain affinity and density 4/5. -/
def reqC1 : ObjectRequest :=
  { type := "tree", subType := "oak", density := 4/5
    location := some { x := 1/2, y := 1/2, radius := 0
                       terrain := some "flatlands" }
    distribution := some "natural" }

/-- A tree request that names no distribution strategy. -/
def reqTreeNoDist : ObjectRequest :=
  { type := "tree", subType := "oak", density := 1/2, location := none
    distribution := none }

/-- A tree request with the random strategy. -/
def reqTreeW : ObjectRequest :=
  { type := "tree", subType := "oak", density := 1/2, location := none
    distribution := some "random" }

/-- A water request whose subtype (`boat`) sets `requireDeepWater`. -/
def reqBoat : ObjectRequest :=
  { type := "waterObject", subType := "boat", density := 1/2, location := none
    distribution := some "water" }

/-- A water request whose subtype name (`default`, as produced by the
prompt parser's generic branch) is absent from `waterObject`'s subtypes. -/
def reqWaterDefault : ObjectRequest :=
  { type := "waterObject", subType := "default", density := 1/2
    location := none, distribution := some "water" }

def suitHalf : ℕ → ℚ := fun _ => 1/2

def suitNine : ℕ → ℚ := fun _ => 9/10

def rndZero : ℕ → ℚ := fun _ => 0

def rndLow : ℕ → ℚ := fun _ => 1/5

def rndHigh : ℕ → ℚ := fun _ => 9/10

/-- A height source in violation of the `[0,1]` contract everywhere. -/
def heightMapBad : ℚ → ℚ → ℚ := fun _ _ => 2

def defaultProps : TerrainProps :=
  { height := 0, minHeight := 0, maxHeight := 0, slope := 0
    slopes := zeroSlopes, terrainFeatures := flatFeatures }

/-- The analyzed grid handed to mask generation: after the full pass every
cell's properties are populated, so the `Option` is always `some`; the
default is never read for in-grid cells. -/
def analyzedProps (heightMap : ℚ → ℚ → ℚ) (g : GridSpec) (msqrt : ℚ → ℚ) :
    ℕ → TerrainProps :=
  fun i => (calculateHeightAndSlope heightMap g msqrt i).getD defaultProps

/-- A tree request with the random strategy, used on the out-of-range
height source. -/
def reqTreeC9 : ObjectRequest :=
  { type := "tree", subType := "oak", density := 1/2, location := none
    distribution := some "random" }

/-- The strategy-selection rule as the spec states it — the request's
distribution name, else the object type's `defaultDistribution` from the
rule table, else `"random"` — for comparison with the code's
`objectData.distribution || 'random'`. -/
def specSelectedDistribution (o : ObjectRequest) : String :=
  match o.distribution with
  | some d => d
  | none => ((findDef objectDefinitions o.type).map
      ObjectDefinition.defaultDistribution).getD "random"

/-! ### Helper lemmas about the analysis pass -/

/-- Preservation: folding the analysis step over cells that are all nonzero
leaves index 0 of the state untouched. -/
theorem analyzeFold_preserve (hm : ℚ → ℚ → ℚ) (g : GridSpec) (msqrt : ℚ → ℚ)
    (v : Option TerrainProps) :
    ∀ (l : List ℕ) (acc : ℕ → Option TerrainProps), (∀ a ∈ l, a ≠ 0) →
      acc 0 = v →
      (l.foldl (fun acc j =>
          let props := analyzeCellProps hm g msqrt
            (fun n => (acc n).map TerrainProps.height) j
          fun k => if k = j then some props else acc k) acc) 0 = v
  | [], _, _, hacc => hacc
  | a :: l, acc, hne, hacc => by
    rw [List.foldl_cons]
    refine analyzeFold_preserve hm g msqrt v l _
      (fun b hb => hne b (List.mem_cons_of_mem _ hb)) ?_
    have ha : a ≠ 0 := hne a (List.mem_cons_self _ _)
    simpa [Ne.symm ha] using hacc

/-- Cell 0 is the first cell the single pass processes, so it is classified
against a completely empty state: every neighbor's `properties.height` is
still `undefined` at that moment. -/
theorem calculateHeightAndSlope_zero (hm : ℚ → ℚ → ℚ) (g : GridSpec)
    (msqrt : ℚ → ℚ) (h : 0 < g.gridSize * g.gridSize) :
    calculateHeightAndSlope hm g msqrt 0
      = some (analyzeCellProps hm g msqrt (fun _ => none) 0) := by
  unfold calculateHeightAndSlope
  obtain ⟨m, hm2⟩ : ∃ m, g.gridSize * g.gridSize = m + 1 :=
    ⟨g.gridSize * g.gridSize - 1, (Nat.succ_pred_eq_of_pos h).symm⟩
  rw [hm2, List.range_succ_eq_map, List.foldl_cons]
  refine analyzeFold_preserve hm g msqrt _ _ _ ?_ ?_
  · intro a ha
    obtain ⟨k, _, rfl⟩ := List.mem_map.mp ha
    exact Nat.succ_ne_zero k
  · simp

/-- Every in-grid cell ends the pass with some fully-written properties;
the fields that do not read the partial state (heights, slope magnitude,
directional slopes) are therefore those of `analyzeCellProps` at some
state. -/
theorem calculateHeightAndSlope_some (hm : ℚ → ℚ → ℚ) (g : GridSpec)
    (msqrt : ℚ → ℚ) (i : ℕ) :
    ∀ (l : List ℕ) (acc : ℕ → Option TerrainProps),
      (i ∈ l ∨ ∃ f, acc i = some (analyzeCellProps hm g msqrt f i)) →
      ∃ f, (l.foldl (fun acc j =>
          let props := analyzeCellProps hm g msqrt
            (fun n => (acc n).map TerrainProps.height) j
          fun k => if k = j then some props else acc k) acc) i
        = some (analyzeCellProps hm g msqrt f i)
  | [], _, h => by
    rcases h with h | h
    · simp at h
    · simpa using h
  | a :: l, acc, h => by
    rw [List.foldl_cons]
    apply calculateHeightAndSlope_some hm g msqrt i l
    by_cases hia : i = a
    · subst hia
      exact Or.inr ⟨fun n => (acc n).map TerrainProps.height, by simp⟩
    · rcases h with h | ⟨f, hf⟩
      · rcases List.mem_cons.mp h with h' | h'
        · exact absurd h' hia
        · exact Or.inl h'
      · exact Or.inr ⟨f, by simpa [hia] using hf⟩

theorem analysis_some (hm : ℚ → ℚ → ℚ) (g : GridSpec) (msqrt : ℚ → ℚ)
    (i : ℕ) (hi : i < g.gridSize * g.gridSize) :
    ∃ f, calculateHeightAndSlope hm g msqrt i
      = some (analyzeCellProps hm g msqrt f i) := by
  unfold calculateHeightAndSlope
  exact calculateHeightAndSlope_some hm g msqrt i _ _
    (Or.inl (List.mem_range.mpr hi))

/-- When the height source is constant over a cell's 25 sample points, the
sample list is 25 copies of that constant. -/
theorem cellSamples_const (hm : ℚ → ℚ → ℚ) (g : GridSpec) (i : ℕ) (c : ℚ)
    (h : ∀ sx sy : ℕ, sx < sampleCount → sy < sampleCount →
      hm (cellOriginX g i + ((sx : ℚ) + 0.5) * (cellWidth g / sampleCount))
        (cellOriginY g i + ((sy : ℚ) + 0.5) * (cellHeight g / sampleCount)) = c) :
    cellSamples hm g i = List.replicate (sampleCount * sampleCount) c := by
  rw [List.eq_replicate_iff]
  refine ⟨rfl, ?_⟩
  intro b hb
  obtain ⟨sy, hsy, hb1⟩ := List.mem_flatMap.mp hb
  obtain ⟨sx, hsx, hfx⟩ := List.mem_map.mp hb1
  rw [← hfx]
  exact h sx sy (List.mem_range.mp hsx) (List.mem_range.mp hsy)

theorem avg_replicate (c : ℚ) :
    (List.replicate 25 c).sum / ((List.replicate 25 c).length : ℚ) = c := by
  rw [List.sum_replicate, List.length_replicate, nsmul_eq_mul]
  push_cast
  field_simp

theorem analyzeCellProps_height (hm : ℚ → ℚ → ℚ) (g : GridSpec)
    (msqrt : ℚ → ℚ) (f : ℕ → Option ℚ) (i : ℕ) :
    (analyzeCellProps hm g msqrt f i).height
      = (cellSamples hm g i).sum / ((cellSamples hm g i).length : ℚ) := rfl

theorem analyzeCellProps_northwest (hm : ℚ → ℚ → ℚ) (g : GridSpec)
    (msqrt : ℚ → ℚ) (f : ℕ → Option ℚ) (i : ℕ) :
    (analyzeCellProps hm g msqrt f i).slopes.northwest
      = slopeInDirection hm g msqrt i .northwest := rfl

/-- `heightMap2` is 9/10 at every sample point of cell 0 of `grid2`. -/
theorem heightMap2_cell0 : ∀ sx sy : ℕ, sx < sampleCount → sy < sampleCount →
    heightMap2 (cellOriginX grid2 0 + ((sx : ℚ) + 0.5) * (cellWidth grid2 / sampleCount))
      (cellOriginY grid2 0 + ((sy : ℚ) + 0.5) * (cellHeight grid2 / sampleCount))
      = 9/10 := by
  intro sx sy hsx hsy
  have hx : (sx : ℚ) ≤ 4 := by exact_mod_cast Nat.lt_succ_iff.mp hsx
  have hy : (sy : ℚ) ≤ 4 := by exact_mod_cast Nat.lt_succ_iff.mp hsy
  rw [heightMap2, if_pos]
  constructor <;>
    · norm_num [cellOriginX, cellOriginY, gridXOf, gridYOf, cellWidth,
        cellHeight, grid2, sampleCount]
      linarith

/-- `heightMap2` is 1/10 at every sample point of cell 1 of `grid2`
(its x-coordinates are ≥ 1). -/
theorem heightMap2_cell1 : ∀ sx sy : ℕ, sx < sampleCount → sy < sampleCount →
    heightMap2 (cellOriginX grid2 1 + ((sx : ℚ) + 0.5) * (cellWidth grid2 / sampleCount))
      (cellOriginY grid2 1 + ((sy : ℚ) + 0.5) * (cellHeight grid2 / sampleCount))
      = 1/10 := by
  intro sx sy _ _
  have hx0 : (0 : ℚ) ≤ (sx : ℚ) := Nat.cast_nonneg sx
  rw [heightMap2, if_neg]
  intro hcon
  have := hcon.1
  norm_num [cellOriginX, gridXOf, cellWidth, grid2, sampleCount] at this
  linarith

/-- `heightMap2` is 1/10 at every sample point of cell 2 of `grid2`
(its y-coordinates are ≥ 1). -/
theorem heightMap2_cell2 : ∀ sx sy : ℕ, sx < sampleCount → sy < sampleCount →
    heightMap2 (cellOriginX grid2 2 + ((sx : ℚ) + 0.5) * (cellWidth grid2 / sampleCount))
      (cellOriginY grid2 2 + ((sy : ℚ) + 0.5) * (cellHeight grid2 / sampleCount))
      = 1/10 := by
  intro sx sy _ _
  have hy0 : (0 : ℚ) ≤ (sy : ℚ) := Nat.cast_nonneg sy
  rw [heightMap2, if_neg]
  intro hcon
  have := hcon.2
  norm_num [cellOriginY, gridYOf, cellHeight, grid2, sampleCount] at this
  linarith

/-- `heightMap2` is 1/10 at every sample point of cell 3 of `grid2`. -/
theorem heightMap2_cell3 : ∀ sx sy : ℕ, sx < sampleCount → sy < sampleCount →
    heightMap2 (cellOriginX grid2 3 + ((sx : ℚ) + 0.5) * (cellWidth grid2 / sampleCount))
      (cellOriginY grid2 3 + ((sy : ℚ) + 0.5) * (cellHeight grid2 / sampleCount))
      = 1/10 := by
  intro sx sy _ _
  have hy0 : (0 : ℚ) ≤ (sy : ℚ) := Nat.cast_nonneg sy
  rw [heightMap2, if_neg]
  intro hcon
  have := hcon.2
  norm_num [cellOriginY, gridYOf, cellHeight, grid2, sampleCount] at this
  linarith

/-- The mean height the pass stores for a `grid2` cell whose samples are
all `c`. -/
theorem analysis2_height_of_const (j : ℕ) (f : ℕ → Option ℚ) (c : ℚ)
    (h : cellSamples heightMap2 grid2 j
      = List.replicate (sampleCount * sampleCount) c) :
    (analyzeCellProps heightMap2 grid2 Rat.sqrt f j).height = c := by
  rw [analyzeCellProps_height, h]
  exact avg_replicate c

/-! ### Helper lemmas: a cell with zero suitability is never set -/

/-- A hard-gate failure stores exactly 0: the loop writes 0 and `continue`s
before any multiplier runs. -/
theorem calculateObjectSuitability_hard_gate (o : ObjectRequest)
    (d : ObjectDefinition) (g : GridSpec) (props : ℕ → TerrainProps)
    (msqrt : ℚ → ℚ) (i : ℕ)
    (hfail : jsGtOpt (props i).slope d.placementRules.maxSlope = true ∨
      (props i).height < d.placementRules.minHeight ∨
      (props i).height > d.placementRules.maxHeight) :
    calculateObjectSuitability o d g props msqrt i = 0 := by
  unfold calculateObjectSuitability
  rcases hfail with h | h
  · simp [h]
  · by_cases hs : jsGtOpt (props i).slope d.placementRules.maxSlope = true
    · simp [hs]
    · simp only [hs]
      simp [h]

/-- Folding a per-cell Bernoulli step over any cell list never sets a cell
whose probability is 0, as long as every draw is nonnegative. -/
theorem bernoulliFold_zero (p : ℕ → ℚ) (rnd : ℕ → ℚ) (i : ℕ)
    (hrnd : ∀ k, 0 ≤ rnd k) (hp : p i = 0) :
    ∀ (l : List ℕ) (st : ℕ × (ℕ → ℕ)), st.2 i = 0 →
      (l.foldl (fun st a => if rnd st.1 < p a then (st.1 + 1, maskSet st.2 a 1)
        else (st.1 + 1, st.2)) st).2 i = 0
  | [], _, hst => hst
  | a :: l, st, hst => by
    rw [List.foldl_cons]
    refine bernoulliFold_zero p rnd i hrnd hp l _ ?_
    by_cases hc : rnd st.1 < p a
    · have hia : i ≠ a := by
        intro he
        rw [← he, hp] at hc
        exact absurd hc (not_lt.mpr (hrnd st.1))
      simpa [hc, maskSet, hia] using hst
    · simpa [hc] using hst

theorem createRandomDistributionMask_zero (g : GridSpec) (suit : ℕ → ℚ)
    (rnd : ℕ → ℚ) (k0 : ℕ) (i : ℕ) (hrnd : ∀ k, 0 ≤ rnd k)
    (hsuit : suit i = 0) :
    (createRandomDistributionMask g suit rnd k0 zeroMask).2 i = 0 :=
  bernoulliFold_zero suit rnd i hrnd hsuit _ _ rfl

/-- The seeding phase of the natural distribution never sets a cell with
zero suitability: the threshold gate `suitability > 0.3` fails first. -/
theorem naturalSeedPhase_zero (g : GridSpec) (suit : ℕ → ℚ) (rnd : ℕ → ℚ)
    (i : ℕ) (hsuit : suit i = 0) :
    ∀ (l : List ℕ) (st : ℕ × (ℕ → ℕ)), st.2 i = 0 →
      (l.foldl (fun st a =>
        if suit a > 0.3 then
          if rnd st.1 < suit a then (st.1 + 1, maskSet st.2 a 1)
          else (st.1 + 1, st.2)
        else st) st).2 i = 0
  | [], _, hst => hst
  | a :: l, st, hst => by
    rw [List.foldl_cons]
    refine naturalSeedPhase_zero g suit rnd i hsuit l _ ?_
    by_cases hgate : suit a > 0.3
    · by_cases hc : rnd st.1 < suit a
      · have hia : i ≠ a := by
          intro he
          rw [← he, hsuit] at hgate
          norm_num at hgate
        simpa [hgate, hc, maskSet, hia] using hst
      · simpa [hgate, hc] using hst
    · simpa [hgate] using hst

/-- One cellular-automaton iteration keeps a zero-suitability cell inactive:
the birth rule requires suitability above `0.3 · 0.7`. -/
theorem caStep_zero (g : GridSpec) (suit : ℕ → ℚ) (m : ℕ → ℕ) (i : ℕ)
    (hm : m i = 0) (hsuit : suit i = 0) : caStep g suit m i = 0 := by
  unfold caStep
  by_cases hlt : i < g.gridSize * g.gridSize
  · simp only [hlt, if_true]
    rw [hm]
    have : ¬ suit i > 0.3 * 0.7 := by rw [hsuit]; norm_num
    simp [this]
  · simpa [hlt] using hm

theorem createNaturalDistributionMask_zero (g : GridSpec) (suit : ℕ → ℚ)
    (rnd : ℕ → ℚ) (k0 : ℕ) (i : ℕ) (hsuit : suit i = 0) :
    (createNaturalDistributionMask g suit rnd k0 zeroMask).2 i = 0 := by
  unfold createNaturalDistributionMask
  refine caStep_zero g suit _ i (caStep_zero g suit _ i ?_ hsuit) hsuit
  exact naturalSeedPhase_zero g suit rnd i hsuit _ _ rfl

/-- No cluster pass activates a zero-suitability cell: its per-cell
probability is `distanceFactor · 0 = 0`, whatever the centers and radius
query return. -/
theorem clusteredFold_zero (g : GridSpec) (suit : ℕ → ℚ) (rnd : ℕ → ℚ)
    (msqrt : ℚ → ℚ) (i : ℕ) (hrnd : ∀ k, 0 ≤ rnd k) (hsuit : suit i = 0) :
    ∀ (cs : List ℕ) (st : ℕ × (ℕ → ℕ)), st.2 i = 0 →
      (cs.foldl (fun st center =>
        (getCellsInRadius g msqrt (cellCenterX g center) (cellCenterY g center)
            (g.width * 0.1)).foldl
          (fun st2 a =>
            let distance := msqrt ((cellCenterX g a - cellCenterX g center) ^ 2 +
              (cellCenterY g a - cellCenterY g center) ^ 2)
            let distanceFactor := 1 - distance / (g.width * 0.1)
            let probability := distanceFactor * suit a
            if rnd st2.1 < probability then (st2.1 + 1, maskSet st2.2 a 1)
            else (st2.1 + 1, st2.2)) st) st).2 i = 0
  | [], _, hst => hst
  | c :: cs, st, hst => by
    rw [List.foldl_cons]
    refine clusteredFold_zero g suit rnd msqrt i hrnd hsuit cs _ ?_
    exact bernoulliFold_zero
      (fun a => (1 - msqrt ((cellCenterX g a - cellCenterX g c) ^ 2 +
        (cellCenterY g a - cellCenterY g c) ^ 2) / (g.width * 0.1)) * suit a)
      rnd i hrnd (by dsimp only; rw [hsuit]; ring) _ _ hst

theorem createClusteredDistributionMask_zero (g : GridSpec) (suit : ℕ → ℚ)
    (rnd : ℕ → ℚ) (msqrt : ℚ → ℚ) (k0 : ℕ) (i : ℕ)
    (hrnd : ∀ k, 0 ≤ rnd k) (hsuit : suit i = 0) :
    (createClusteredDistributionMask g suit rnd msqrt k0 zeroMask).2 i = 0 := by
  unfold createClusteredDistributionMask
  exact clusteredFold_zero g suit rnd msqrt i hrnd hsuit _ _ rfl

/-- Zero suitability forces zero water suitability through every branch of
the eligibility chain. -/
theorem waterSuitabilityOf_zero (o : ObjectRequest) (g : GridSpec)
    (props : ℕ → TerrainProps) (suit : ℕ → ℚ) (i : ℕ) (hsuit : suit i = 0) :
    waterSuitabilityOf o g props suit i = 0 := by
  unfold waterSuitabilityOf
  dsimp only
  split_ifs <;> simp [hsuit]

theorem createWaterDistributionMask_stay_zero (o : ObjectRequest)
    (g : GridSpec) (props : ℕ → TerrainProps) (suit : ℕ → ℚ) (rnd : ℕ → ℚ)
    (k0 : ℕ) (i : ℕ) (hrnd : ∀ k, 0 ≤ rnd k)
    (hws : waterSuitabilityOf o g props suit i = 0) :
    (createWaterDistributionMask o g props suit rnd k0 zeroMask).2 i = 0 := by
  unfold createWaterDistributionMask
  exact bernoulliFold_zero (fun a => waterSuitabilityOf o g props suit a)
    rnd i hrnd hws _ _ rfl

/-! ### Claim theorems -/

/-- Claim C1 (refuted; the code omits the clamp): the suitability stored by
`calculateObjectSuitability` is claimed to lie in `[0,1]`, but for a tree
request with a matching `flatlands` terrain affinity and density 4/5 the
stored score is `1 · 1.5 · 0.8 = 6/5 > 1` — no clamp is applied before the
value is stored.  (`treeDef` is the rule-table entry for `"tree"`.) -/
theorem calculateObjectSuitability_stores_unclamped_value :
    findDef objectDefinitions "tree" = some treeDef
    ∧ calculateObjectSuitability reqC1 treeDef gridOne propsFlat Rat.sqrt 0 = 6/5
    ∧ (1 : ℚ) < 6/5 := by
  refine ⟨rfl, ?_, by norm_num⟩
  norm_num [calculateObjectSuitability, reqC1, treeDef, propsFlat, jsGtOpt,
    findDef, cellHasTerrainFeature, flatFeatures]

/-- Claim C2 (confirmed): for any request whose rule-table definition it
is, any analyzed grid, any nonnegative draw stream and any cell that fails
a hard constraint — slope above the definition's `maxSlope` or mean height
outside `[minHeight, maxHeight]` — the stored suitability is exactly 0 and
all four distribution strategies leave that cell at 0 in the mask. -/
theorem hard_constraint_soundness (o : ObjectRequest) (d : ObjectDefinition)
    (g : GridSpec) (props : ℕ → TerrainProps) (msqrt : ℚ → ℚ) (rnd : ℕ → ℚ)
    (k0 : ℕ) (i : ℕ)
    (_hd : findDef objectDefinitions o.type = some d)
    (hrnd : ∀ k, 0 ≤ rnd k)
    (hfail : jsGtOpt (props i).slope d.placementRules.maxSlope = true ∨
      (props i).height < d.placementRules.minHeight ∨
      (props i).height > d.placementRules.maxHeight) :
    calculateObjectSuitability o d g props msqrt i = 0
    ∧ (createRandomDistributionMask g
        (calculateObjectSuitability o d g props msqrt) rnd k0 zeroMask).2 i = 0
    ∧ (createNaturalDistributionMask g
        (calculateObjectSuitability o d g props msqrt) rnd k0 zeroMask).2 i = 0
    ∧ (createClusteredDistributionMask g
        (calculateObjectSuitability o d g props msqrt) rnd msqrt k0 zeroMask).2 i = 0
    ∧ (createWaterDistributionMask o g props
        (calculateObjectSuitability o d g props msqrt) rnd k0 zeroMask).2 i = 0 := by
  have hz := calculateObjectSuitability_hard_gate o d g props msqrt i hfail
  exact ⟨hz,
    createRandomDistributionMask_zero g _ rnd k0 i hrnd hz,
    createNaturalDistributionMask_zero g _ rnd k0 i hz,
    createClusteredDistributionMask_zero g _ rnd msqrt k0 i hrnd hz,
    createWaterDistributionMask_stay_zero o g props _ rnd k0 i hrnd
      (waterSuitabilityOf_zero o g props _ i hz)⟩

/-- Witness for C2 at a concrete input: a tree request over a grid whose
every cell has slope 1 > `treeDef`'s max slope 0.15. -/
theorem hard_constraint_soundness_witness :
    findDef objectDefinitions reqTreeW.type = some treeDef
    ∧ jsGtOpt (propsSteep 0).slope treeDef.placementRules.maxSlope = true
    ∧ (calculateObjectSuitability reqTreeW treeDef grid2 propsSteep Rat.sqrt 0 = 0
      ∧ (createRandomDistributionMask grid2
          (calculateObjectSuitability reqTreeW treeDef grid2 propsSteep Rat.sqrt)
          rndZero 0 zeroMask).2 0 = 0
      ∧ (createNaturalDistributionMask grid2
          (calculateObjectSuitability reqTreeW treeDef grid2 propsSteep Rat.sqrt)
          rndZero 0 zeroMask).2 0 = 0
      ∧ (createClusteredDistributionMask grid2
          (calculateObjectSuitability reqTreeW treeDef grid2 propsSteep Rat.sqrt)
          rndZero Rat.sqrt 0 zeroMask).2 0 = 0
      ∧ (createWaterDistributionMask reqTreeW grid2 propsSteep
          (calculateObjectSuitability reqTreeW treeDef grid2 propsSteep Rat.sqrt)
          rndZero 0 zeroMask).2 0 = 0) :=
  ⟨rfl, by norm_num [jsGtOpt, propsSteep, treeDef],
    hard_constraint_soundness reqTreeW treeDef grid2 propsSteep Rat.sqrt
      rndZero 0 0 rfl (fun _ => le_refl 0)
      (Or.inl (by norm_num [jsGtOpt, propsSteep, treeDef]))⟩

/-- Claim C3 (refuted; the randomness is the ambient `Math.random()`): with
grid, request and suitability fixed, the random-distribution mask differs
between two runs whose ambient draw sequences differ — there is no seed
anywhere in the generator's interface, so nothing pins the draws down. -/
theorem createRandomDistributionMask_depends_on_ambient_draws :
    (createRandomDistributionMask gridOne suitHalf rndLow 0 zeroMask).2 0 = 1
    ∧ (createRandomDistributionMask gridOne suitHalf rndHigh 0 zeroMask).2 0 = 0 := by
  constructor <;>
    norm_num [createRandomDistributionMask, gridOne, suitHalf, rndLow, rndHigh,
      List.range_succ, maskSet, zeroMask]

/-- Claim C4 (refuted; classification runs inside the single analysis pass):
on `grid2` with `heightMap2`, cell (0,0) has mean height 9/10 and every
in-bounds Moore neighbor has mean height 1/10, yet the stored `isPeak` is
`false`, because cell (0,0) is classified before any neighbor's
`properties.height` exists and a JS comparison with `undefined` is false. -/
theorem singlePass_misclassifies_strictly_highest_cell :
    ((analysis2 0).map fun p => p.terrainFeatures.isPeak) = some false
    ∧ (analysis2 0).map TerrainProps.height = some (9/10)
    ∧ ((getNeighbors grid2 0).map fun j => (analysis2 j).map TerrainProps.height)
        = [some (1/10), some (1/10), some (1/10)] := by
  have hzero : analysis2 0
      = some (analyzeCellProps heightMap2 grid2 Rat.sqrt (fun _ => none) 0) :=
    calculateHeightAndSlope_zero heightMap2 grid2 Rat.sqrt (by decide)
  have hnb : getNeighbors grid2 0 = [1, 2, 3] := rfl
  refine ⟨?_, ?_, ?_⟩
  · rw [hzero]
    simp [analyzeCellProps, classifyTerrainFeatures, hnb, jsLtOpt]
  · rw [hzero]
    simp only [Option.map_some']
    rw [analysis2_height_of_const 0 _ (9/10)
      (cellSamples_const heightMap2 grid2 0 (9/10) heightMap2_cell0)]
  · rw [hnb]
    obtain ⟨f1, h1⟩ := analysis_some heightMap2 grid2 Rat.sqrt 1 (by decide)
    obtain ⟨f2, h2⟩ := analysis_some heightMap2 grid2 Rat.sqrt 2 (by decide)
    obtain ⟨f3, h3⟩ := analysis_some heightMap2 grid2 Rat.sqrt 3 (by decide)
    simp only [List.map_cons, List.map_nil, analysis2, h1, h2, h3,
      Option.map_some']
    rw [analysis2_height_of_const 1 _ (1/10)
        (cellSamples_const heightMap2 grid2 1 (1/10) heightMap2_cell1),
      analysis2_height_of_const 2 _ (1/10)
        (cellSamples_const heightMap2 grid2 2 (1/10) heightMap2_cell2),
      analysis2_height_of_const 3 _ (1/10)
        (cellSamples_const heightMap2 grid2 3 (1/10) heightMap2_cell3)]

/-- Claim C6 (refuted; the synthesizer never consults the rule table): the
tree request with no distribution name is claimed to fall back to the tree
type's table default `"natural"`, but `createPlacementMask` dispatches on
`objectData.distribution || 'random'` and runs the random strategy: on a
1-cell grid with suitability 1/2 and draw 1/5 the code's mask sets the
cell, while the natural strategy — the one the claim says is selected —
leaves it clear (the seeded cell dies for lack of neighbors). -/
theorem fallback_ignores_table_default :
    specSelectedDistribution reqTreeNoDist = "natural"
    ∧ (createPlacementMask reqTreeNoDist gridOne propsFlat suitHalf Rat.sqrt
        rndLow 0 zeroMask).2 0 = 1
    ∧ (createNaturalDistributionMask gridOne suitHalf rndLow 0 zeroMask).2 0 = 0 := by
  refine ⟨rfl, ?_, ?_⟩
  · unfold createPlacementMask
    rw [show reqTreeNoDist.distribution.getD "random" = "random" from rfl]
    rw [if_neg (by decide), if_neg (by decide), if_neg (by decide)]
    norm_num [createRandomDistributionMask, gridOne, suitHalf, rndLow,
      List.range_succ, maskSet, zeroMask]
  · norm_num [createNaturalDistributionMask, naturalSeedPhase, caStep,
      countActiveNeighbors, List.range_succ, suitHalf, rndLow, maskSet, zeroMask,
      show getNeighbors gridOne 0 = [] from rfl,
      show gridOne.gridSize = 1 from rfl]

/-- Amended C6: when the request names no strategy, `createPlacementMask`
uses the random strategy directly; the rule-table `defaultDistribution` is
never consulted by the synthesizer. -/
theorem createPlacementMask_fallback_random (o : ObjectRequest) (g : GridSpec)
    (props : ℕ → TerrainProps) (suit : ℕ → ℚ) (msqrt : ℚ → ℚ) (rnd : ℕ → ℚ)
    (k0 : ℕ) (m0 : ℕ → ℕ) (h : o.distribution = none) :
    createPlacementMask o g props suit msqrt rnd k0 m0
      = createRandomDistributionMask g suit rnd k0 m0 := by
  simp [createPlacementMask, h]

/-- Witness for the amended C6 at a concrete input. -/
theorem createPlacementMask_fallback_random_witness :
    reqTreeNoDist.distribution = none
    ∧ createPlacementMask reqTreeNoDist gridOne propsFlat suitHalf Rat.sqrt
        rndLow 0 zeroMask
      = createRandomDistributionMask gridOne suitHalf rndLow 0 zeroMask :=
  ⟨rfl, createPlacementMask_fallback_random reqTreeNoDist gridOne propsFlat
    suitHalf Rat.sqrt rndLow 0 zeroMask rfl⟩

/-- Seeding only ever activates a cell whose suitability exceeds the 0.3
threshold (invariant over the seeding fold). -/
theorem naturalSeedFold_bound (g : GridSpec) (suit : ℕ → ℚ) (rnd : ℕ → ℚ)
    (i : ℕ) :
    ∀ (l : List ℕ) (st : ℕ × (ℕ → ℕ)), (st.2 i = 1 → suit i > 0.3) →
      ((l.foldl (fun st a =>
        if suit a > 0.3 then
          if rnd st.1 < suit a then (st.1 + 1, maskSet st.2 a 1)
          else (st.1 + 1, st.2)
        else st) st).2 i = 1 → suit i > 0.3)
  | [], _, h => h
  | a :: l, st, h => by
    rw [List.foldl_cons]
    refine naturalSeedFold_bound g suit rnd i l _ ?_
    by_cases hgate : suit a > 0.3
    · by_cases hc : rnd st.1 < suit a
      · intro hset
        by_cases hia : i = a
        · rw [hia]; exact hgate
        · refine h ?_
          simpa [hgate, hc, maskSet, hia] using hset
      · intro hset
        refine h ?_
        simpa [hgate, hc] using hset
    · intro hset
      refine h ?_
      simpa [hgate] using hset

/-- One CA iteration preserves the suitability bound on active cells: a
survivor was already active, and a birth requires suitability above
`0.3 · 0.7 = 21/100`. -/
theorem caStep_bound (g : GridSpec) (suit : ℕ → ℚ) (m : ℕ → ℕ) (i : ℕ)
    (hm : m i = 1 → suit i > 21/100) (h : caStep g suit m i = 1) :
    suit i > 21/100 := by
  unfold caStep at h
  by_cases hlt : i < g.gridSize * g.gridSize
  · rw [if_pos hlt] at h
    dsimp only at h
    by_cases hmi : m i = 1
    · exact hm hmi
    · rw [if_neg hmi] at h
      split_ifs at h with hb
      have h3 := hb.2.2
      have he : (0.3 * 0.7 : ℚ) = 21/100 := by norm_num
      rw [he] at h3
      exact h3
  · rw [if_neg hlt] at h
    exact hm h

/-- Claim C7 (confirmed): any cell active in the final natural-distribution
mask — after seeding and both CA iterations — has stored suitability
strictly above `0.7 · 0.3 = 21/100`, for every draw stream. -/
theorem natural_mask_suitability_bound (g : GridSpec) (suit : ℕ → ℚ)
    (rnd : ℕ → ℚ) (k0 : ℕ) (i : ℕ)
    (h : (createNaturalDistributionMask g suit rnd k0 zeroMask).2 i = 1) :
    suit i > 21/100 := by
  unfold createNaturalDistributionMask at h
  dsimp only at h
  refine caStep_bound g suit _ i
    (fun h1 => caStep_bound g suit _ i (fun h2 => ?_) h1) h
  unfold naturalSeedPhase at h2
  have h3 : suit i > 0.3 :=
    naturalSeedFold_bound g suit rnd i _ _
      (fun hz => absurd hz (by norm_num [zeroMask])) h2
  have h4 : (21/100 : ℚ) < 0.3 := by norm_num
  exact lt_trans h4 h3

/-- Witness for C7: on a fully seeded 2×2 grid every cell keeps 3 active
neighbors through both CA iterations, so cell 0 ends active. -/
theorem natural_mask_suitability_bound_witness :
    (createNaturalDistributionMask grid2 suitNine rndZero 0 zeroMask).2 0 = 1
    ∧ suitNine 0 > 21/100 := by
  have hmask : (createNaturalDistributionMask grid2 suitNine rndZero 0 zeroMask).2 0 = 1 := by
    norm_num [createNaturalDistributionMask, naturalSeedPhase, caStep,
      countActiveNeighbors, List.range_succ, suitNine, rndZero, maskSet, zeroMask,
      show getNeighbors grid2 0 = [1, 2, 3] from rfl,
      show getNeighbors grid2 1 = [0, 2, 3] from rfl,
      show getNeighbors grid2 2 = [0, 1, 3] from rfl,
      show getNeighbors grid2 3 = [0, 1, 2] from rfl,
      show grid2.gridSize = 2 from rfl]
  exact ⟨hmask, natural_mask_suitability_bound grid2 suitNine rndZero 0 0 hmask⟩

/-- In the rule table, every subtype that sets `requireDeepWater` leaves
`requireWaterEdge` unset (only `boat` sets the former). -/
theorem deepWater_not_edge : ∀ p ∈ objectDefinitions, ∀ q ∈ p.2.subtypes,
    q.2.customRules.requireDeepWater = true →
      q.2.customRules.requireWaterEdge = false := by decide

/-- Claim C8 (confirmed): for a water request whose subtype sets
`requireDeepWater`, over a grid where the unique deep cell has mean height
3/100 and every other cell — in particular the cell `i` under inspection —
has mean height at least 1/10, the mask is 0 at every cell other than the
deep one, for every nonnegative draw stream. -/
theorem water_deep_only_deep_cell_set (o : ObjectRequest)
    (d : ObjectDefinition) (st : ObjectSubtype) (g : GridSpec)
    (props : ℕ → TerrainProps) (suit : ℕ → ℚ) (rnd : ℕ → ℚ) (k0 : ℕ)
    (deepCell i : ℕ)
    (hd : findDef objectDefinitions o.type = some d)
    (hst : findDef d.subtypes o.subType = some st)
    (hdeep : st.customRules.requireDeepWater = true)
    (hrnd : ∀ k, 0 ≤ rnd k)
    (_hdc : (props deepCell).height = 3/100)
    (hothers : 1/10 ≤ (props i).height)
    (_hi : i ≠ deepCell) :
    (createWaterDistributionMask o g props suit rnd k0 zeroMask).2 i = 0 := by
  have hedge : st.customRules.requireWaterEdge = false :=
    deepWater_not_edge _ (findDef_mem hd) _ (findDef_mem hst) hdeep
  apply createWaterDistributionMask_stay_zero o g props suit rnd k0 i hrnd
  unfold waterSuitabilityOf
  dsimp only
  have hsub : (((findDef objectDefinitions o.type).bind fun dd =>
      findDef dd.subtypes o.subType).map ObjectSubtype.customRules).getD {}
      = st.customRules := by
    rw [hd]
    dsimp only [Option.bind]
    rw [hst]
    rfl
  rw [hsub, hdeep, hedge]
  have hnd : decide ((props i).height < 0.05) = false := by
    simp only [decide_eq_false_iff_not, not_lt]
    have h5 : (0.05 : ℚ) ≤ 1/10 := by norm_num
    linarith
  rw [hnd]
  simp

/-- Witness for C8: the `boat` subtype of `waterObject` over `grid2` with
`propsWater` (cell 0 deep at 3/100, all others at 1/10); cell 1 stays 0. -/
theorem water_deep_only_deep_cell_set_witness :
    findDef objectDefinitions reqBoat.type = some waterObjectDef
    ∧ findDef waterObjectDef.subtypes reqBoat.subType
        = some { name := "Boat", scalingMin := 0.8, scalingMax := 1.2
                 customRules := { requireDeepWater := true } }
    ∧ (propsWater 0).height = 3/100
    ∧ (1 : ℚ)/10 ≤ (propsWater 1).height
    ∧ (createWaterDistributionMask reqBoat grid2 propsWater suitHalf rndZero 0
        zeroMask).2 1 = 0 :=
  ⟨rfl, rfl, by norm_num [propsWater], by norm_num [propsWater],
    water_deep_only_deep_cell_set reqBoat waterObjectDef
      { name := "Boat", scalingMin := 0.8, scalingMax := 1.2
        customRules := { requireDeepWater := true } }
      grid2 propsWater suitHalf rndZero 0 0 1 rfl rfl rfl (fun _ => le_refl 0)
      (by norm_num [propsWater]) (by norm_num [propsWater]) (by decide)⟩

/-- Processing one more request never removes a mask already recorded. -/
theorem processObject_preserves (g : GridSpec) (props : ℕ → TerrainProps)
    (msqrt : ℚ → ℚ) (rnd : ℕ → ℚ) (t : String)
    (st : ℕ × List (String × (ℕ → ℕ))) (o : ObjectRequest)
    (h : (findDef st.2 t).isSome = true) :
    (findDef (processObject g props msqrt rnd st o).2 t).isSome = true := by
  unfold processObject
  cases hfd : findDef objectDefinitions o.type with
  | none => exact h
  | some dd =>
    dsimp only
    rw [findDef_cons]
    split_ifs
    · rfl
    · exact h

/-- Folding `processObject` over a request list records a mask for every
request whose type is in the rule table. -/
theorem genMasksFold_isSome (g : GridSpec) (props : ℕ → TerrainProps)
    (msqrt : ℚ → ℚ) (rnd : ℕ → ℚ) (t : String)
    (ht : (findDef objectDefinitions t).isSome = true) :
    ∀ (l : List ObjectRequest) (st : ℕ × List (String × (ℕ → ℕ))),
      ((∃ o ∈ l, o.type = t) ∨ (findDef st.2 t).isSome = true) →
      (findDef (l.foldl (processObject g props msqrt rnd) st).2 t).isSome = true
  | [], _, h => by
    rcases h with ⟨o, ho, _⟩ | h
    · simp at ho
    · exact h
  | a :: l, st, h => by
    rw [List.foldl_cons]
    apply genMasksFold_isSome g props msqrt rnd t ht l
    rcases h with ⟨o, ho, hot⟩ | hs
    · rcases List.mem_cons.mp ho with rfl | hmem
      · right
        have ht' : (findDef objectDefinitions o.type).isSome = true := by
          rw [hot]
          exact ht
        obtain ⟨dd, hdd⟩ := Option.isSome_iff_exists.mp ht'
        unfold processObject
        rw [hdd]
        dsimp only
        rw [findDef_cons, if_pos hot]
        rfl
      · exact Or.inl ⟨o, hmem, hot⟩
    · exact Or.inr (processObject_preserves g props msqrt rnd t st a hs)

/-- Amended C9: the pipeline has no integrity check and no abort path —
whatever values the height source produced, every request whose type is in
the rule table ends the run with a (complete) mask recorded under its
type. -/
theorem generatePlacementMasks_never_absent (objects : List ObjectRequest)
    (g : GridSpec) (props : ℕ → TerrainProps) (msqrt : ℚ → ℚ) (rnd : ℕ → ℚ)
    (k0 : ℕ) (o : ObjectRequest) (ho : o ∈ objects)
    (hd : (findDef objectDefinitions o.type).isSome = true) :
    (findDef (generatePlacementMasks objects g props msqrt rnd k0).2
      o.type).isSome = true := by
  unfold generatePlacementMasks
  refine genMasksFold_isSome g props msqrt rnd o.type hd _ _ (Or.inl ⟨o, ?_, rfl⟩)
  exact (List.mergeSort_perm objects _).mem_iff.mpr ho

/-- Witness for the amended C9: a tree request over the out-of-range
height source still gets a mask. -/
theorem generatePlacementMasks_never_absent_witness :
    reqTreeC9 ∈ [reqTreeC9]
    ∧ (findDef objectDefinitions reqTreeC9.type).isSome = true
    ∧ (findDef (generatePlacementMasks [reqTreeC9] gridOne
        (analyzedProps heightMapBad gridOne Rat.sqrt) Rat.sqrt rndZero 0).2
        reqTreeC9.type).isSome = true :=
  ⟨List.mem_cons_self _ _, rfl,
    generatePlacementMasks_never_absent [reqTreeC9] gridOne
      (analyzedProps heightMapBad gridOne Rat.sqrt) Rat.sqrt rndZero 0
      reqTreeC9 (List.mem_cons_self _ _) rfl⟩

/-- The single cell of `gridOne` under `heightMapBad` gets mean height 2 —
an out-of-`[0,1]` value flows through the analyzer unchecked. -/
theorem analyzedProps_heightMapBad_height :
    (analyzedProps heightMapBad gridOne Rat.sqrt 0).height = 2 := by
  have hprops0 : analyzedProps heightMapBad gridOne Rat.sqrt 0
      = analyzeCellProps heightMapBad gridOne Rat.sqrt (fun _ => none) 0 := by
    unfold analyzedProps
    rw [calculateHeightAndSlope_zero heightMapBad gridOne Rat.sqrt (by decide)]
    rfl
  have hsamp : cellSamples heightMapBad gridOne 0 = List.replicate 25 2 := by
    have h := cellSamples_const heightMapBad gridOne 0 2 (fun _ _ _ _ => rfl)
    simpa [sampleCount] using h
  rw [hprops0, analyzeCellProps_height, hsamp]
  exact avg_replicate 2

/-- Claim C9 (refuted; no abort exists): the height source returns 2
(non-compliant with the `[0,1]` contract) for every required sample, yet
the tree request's mask generation completes and a full mask is recorded —
here its only cell, forced to 0 by the hard height gate, is readable.  The
claim says the request's mask generation aborts and its mask is entirely
absent. -/
theorem out_of_range_height_still_produces_mask :
    heightMapBad 0 0 = 2
    ∧ ¬(heightMapBad 0 0 ≤ 1)
    ∧ ((findDef (generatePlacementMasks [reqTreeC9] gridOne
        (analyzedProps heightMapBad gridOne Rat.sqrt) Rat.sqrt rndZero 0).2
        "tree").map fun m => m 0) = some 0 := by
  refine ⟨rfl, by norm_num [heightMapBad], ?_⟩
  have hsuit : calculateObjectSuitability reqTreeC9 treeDef gridOne
      (analyzedProps heightMapBad gridOne Rat.sqrt) Rat.sqrt 0 = 0 :=
    calculateObjectSuitability_hard_gate _ _ _ _ _ _
      (Or.inr (Or.inr (by rw [analyzedProps_heightMapBad_height]
                          norm_num [treeDef])))
  unfold generatePlacementMasks
  rw [List.mergeSort_singleton, List.foldl_cons, List.foldl_nil]
  unfold processObject
  rw [show findDef objectDefinitions reqTreeC9.type = some treeDef from rfl]
  dsimp only
  unfold createPlacementMask
  rw [show reqTreeC9.distribution.getD "random" = "random" from rfl]
  rw [if_neg (by decide), if_neg (by decide), if_neg (by decide)]
  unfold createRandomDistributionMask
  rw [show List.range (gridOne.gridSize * gridOne.gridSize) = [0] from rfl]
  rw [List.foldl_cons, List.foldl_nil]
  rw [if_neg (by rw [hsuit]; norm_num [rndZero])]
  rfl

/-- Claim C10 (confirmed): a request whose type is in the rule table but
whose subtype name is absent from that type's subtypes is not skipped — a
mask is still recorded for it — and it is scored exactly as if its subtype
declared no custom rules (the same value as under a definition with no
subtypes at all); in the water strategy its per-cell water suitability is
the plain-water default (suitability on water cells, 0 elsewhere). -/
theorem unknown_subtype_empty_rules (objects : List ObjectRequest)
    (o : ObjectRequest) (d : ObjectDefinition) (g : GridSpec)
    (props : ℕ → TerrainProps) (suit : ℕ → ℚ) (msqrt : ℚ → ℚ) (rnd : ℕ → ℚ)
    (k0 : ℕ) (i : ℕ) (ho : o ∈ objects)
    (hd : findDef objectDefinitions o.type = some d)
    (hs : findDef d.subtypes o.subType = none) :
    (findDef (generatePlacementMasks objects g props msqrt rnd k0).2
      o.type).isSome = true
    ∧ calculateObjectSuitability o d g props msqrt i
        = calculateObjectSuitability o { d with subtypes := [] } g props msqrt i
    ∧ waterSuitabilityOf o g props suit i
        = (if (props i).height < 0.1 then suit i else 0) := by
  refine ⟨?_, ?_, ?_⟩
  · unfold generatePlacementMasks
    refine genMasksFold_isSome g props msqrt rnd o.type (by rw [hd]; rfl) _ _
      (Or.inl ⟨o, ?_, rfl⟩)
    exact (List.mergeSort_perm objects _).mem_iff.mpr ho
  · unfold calculateObjectSuitability
    rw [hs]
    rfl
  · unfold waterSuitabilityOf
    dsimp only
    rw [hd]
    dsimp only [Option.bind]
    rw [hs]
    by_cases hw : (props i).height < 0.1 <;> simp [hw]

/-- Witness for C10: the `waterObject` request with the parser's generic
subtype name `default`, which is absent from the `waterObject` subtypes. -/
theorem unknown_subtype_empty_rules_witness :
    reqWaterDefault ∈ [reqWaterDefault]
    ∧ findDef objectDefinitions reqWaterDefault.type = some waterObjectDef
    ∧ findDef waterObjectDef.subtypes reqWaterDefault.subType = none
    ∧ ((findDef (generatePlacementMasks [reqWaterDefault] grid2 propsWater
          Rat.sqrt rndZero 0).2 reqWaterDefault.type).isSome = true
      ∧ calculateObjectSuitability reqWaterDefault waterObjectDef grid2
          propsWater Rat.sqrt 0
        = calculateObjectSuitability reqWaterDefault
            { waterObjectDef with subtypes := [] } grid2 propsWater Rat.sqrt 0
      ∧ waterSuitabilityOf reqWaterDefault grid2 propsWater suitHalf 0
        = (if (propsWater 0).height < 0.1 then suitHalf 0 else 0)) :=
  ⟨List.mem_cons_self _ _, rfl, rfl,
    unknown_subtype_empty_rules [reqWaterDefault] reqWaterDefault
      waterObjectDef grid2 propsWater suitHalf Rat.sqrt rndZero 0 0
      (List.mem_cons_self _ _) rfl rfl⟩

/-- The distance test of `calculateDirectionalSlopes` is true for the
northwest direction: `'northwest'.includes('north')`. -/
theorem jsIncludes_northwest :
    (jsIncludes ['n', 'o', 'r', 't', 'h'] (directionName Direction.northwest) ||
      jsIncludes ['s', 'o', 'u', 't', 'h'] (directionName Direction.northwest) ||
      jsIncludes ['e', 'a', 's', 't'] (directionName Direction.northwest) ||
      jsIncludes ['w', 'e', 's', 't'] (directionName Direction.northwest))
      = true := rfl

/-- Claim C5 (refuted for diagonal directions): on `grid2` (cell width 1),
the northwest slope stored for cell (1,1) is `(9/10 − 1/10) / 1 = 4/5`, not
the claimed `(9/10 − 1/10) / (1·√2)`: every diagonal direction name
contains a cardinal name as a substring (`'northwest'.includes('north')` is
true), so the `Math.sqrt(2·w·w)` branch of the distance computation is
unreachable. -/
theorem diagonal_slope_uses_cardinal_distance :
    cellWidth grid2 = 1
    ∧ heightMap2 (cellCenterX grid2 0) (cellCenterY grid2 0) = 9/10
    ∧ heightMap2 (cellCenterX grid2 3) (cellCenterY grid2 3) = 1/10
    ∧ ((analysis2 3).map fun p => p.slopes.northwest) = some (4/5)
    ∧ (4/5 : ℝ) ≠ (9/10 - 1/10) / (1 * Real.sqrt 2) := by
  refine ⟨by norm_num [cellWidth, grid2],
    by norm_num [heightMap2, cellCenterX, cellCenterY, gridXOf, gridYOf,
      cellWidth, cellHeight, grid2],
    by norm_num [heightMap2, cellCenterX, cellCenterY, gridXOf, gridYOf,
      cellWidth, cellHeight, grid2],
    ?_, ?_⟩
  · obtain ⟨f3, h3⟩ := analysis_some heightMap2 grid2 Rat.sqrt 3 (by decide)
    rw [analysis2, h3]
    simp only [Option.map_some', analyzeCellProps_northwest]
    rw [slopeInDirection]
    norm_num [directionDelta, gridXOf, gridYOf, grid2, jsIncludes_northwest,
      directionName, jsIncludes, startsWithSeq, cellWidth, cellHeight,
      cellCenterX, cellCenterY, heightMap2]
  · have hs : Real.sqrt 2 ≠ 1 := fun h => by
      have := Real.sqrt_eq_one.mp h
      norm_num at this
    intro h
    have hpos : (0 : ℝ) < Real.sqrt 2 := Real.sqrt_pos.mpr (by norm_num)
    rw [show ((9 : ℝ)/10 - 1/10) = 4/5 by norm_num, one_mul,
      eq_div_iff (ne_of_gt hpos)] at h
    have h45 : (4/5 : ℝ) ≠ 0 := by norm_num
    exact hs (mul_left_cancel₀ h45 (h.trans (mul_one ((4 : ℝ)/5)).symm))

end Roam
